import Mathlib

/-
Shallow embedding of the interval timer screen
(src/app/(tabs)/timerPage.tsx) of the Improved-Fitness-Timer mobile app.

The screen keeps four configuration fields (main minutes/seconds,
get-ready minutes/seconds), the countdown value timeLeft, the flags
isRunning / isPaused / getReadyPlayed and the edit-modal visibility.
The setInterval callback (the tick), the button handlers handleStart,
handleEdit, handleSave, handleCancel and the TextInput onChangeText
handlers are translated below as pure functions on that state.
-/

namespace FitnessTimer

/-- Cue events emitted to the audio sink: the short get-ready beep and
the completion (long) beep. -/
inductive Cue where
  | getReady
  | complete
deriving Repr, DecidableEq, BEq

/-- The component state of TimerPage: the four persisted configuration
fields, the countdown state and the modal visibility, exactly the
useState hooks of the source file. -/
structure TimerPageState where
  mainTimerMinutes : Int
  mainTimerSeconds : Int
  getReadyMinutes : Int
  getReadySeconds : Int
  timeLeft : Int
  isRunning : Bool
  isPaused : Bool
  getReadyPlayed : Bool
  modalVisible : Bool
deriving Repr, DecidableEq

/-- totalTime = mainTimerMinutes * 60 + mainTimerSeconds (the configured
main duration in seconds). -/
def totalTime (s : TimerPageState) : Int :=
  s.mainTimerMinutes * 60 + s.mainTimerSeconds

/-- getReadyTime = getReadyMinutes * 60 + getReadySeconds (the configured
get-ready offset in seconds). -/
def getReadyTime (s : TimerPageState) : Int :=
  s.getReadyMinutes * 60 + s.getReadySeconds

/-- The setTimeLeft updater run by the setInterval callback: if the
previous value is at most 0 it plays the long beep and stops the run;
otherwise it plays the short beep when the previous value equals the
get-ready offset and the cue has not fired yet, then decrements. -/
def tickBody (s : TimerPageState) : TimerPageState × List Cue :=
  if s.timeLeft ≤ 0 then
    ({ s with timeLeft := 0, isRunning := false, isPaused := false,
              getReadyPlayed := false }, [Cue.complete])
  else if s.timeLeft = getReadyTime s ∧ s.getReadyPlayed = false then
    ({ s with timeLeft := s.timeLeft - 1, getReadyPlayed := true },
     [Cue.getReady])
  else
    ({ s with timeLeft := s.timeLeft - 1 }, [])

/-- One clock tick. The timer useEffect installs the interval only while
isRunning and not isPaused, so a tick is delivered (and processed) only
in that state; otherwise nothing happens. -/
def tick (s : TimerPageState) : TimerPageState × List Cue :=
  if s.isRunning && !s.isPaused then tickBody s else (s, [])

/-- Deliver n consecutive clock ticks, collecting the emitted cues. -/
def runTicks : Nat → TimerPageState → TimerPageState × List Cue
  | 0, s => (s, [])
  | n + 1, s =>
    let r := tick s
    let r2 := runTicks n r.1
    (r2.1, r.2 ++ r2.2)

/-- handleStart, the primary action button: when not running it starts a
fresh run (timeLeft := totalTime, clear getReadyPlayed); when paused it
resumes; when actively running it pauses. -/
def handleStart (s : TimerPageState) : TimerPageState :=
  if s.isRunning = false then
    { s with timeLeft := totalTime s, isRunning := true, isPaused := false,
             getReadyPlayed := false }
  else if s.isPaused = true then
    { s with isPaused := false }
  else
    { s with isPaused := true }

/-- handleEdit: opens the edit modal. -/
def handleEdit (s : TimerPageState) : TimerPageState :=
  { s with modalVisible := true }

/-- handleSave: resets timeLeft to the current totalTime, stops and
resets the run, and closes the modal. -/
def handleSave (s : TimerPageState) : TimerPageState :=
  { s with timeLeft := totalTime s, isRunning := false, isPaused := false,
           getReadyPlayed := false, modalVisible := false }

/-- handleCancel: closes the modal and changes nothing else. -/
def handleCancel (s : TimerPageState) : TimerPageState :=
  { s with modalVisible := false }

/-- Numeric value of a list of decimal digit characters. -/
def digitsToNat (cs : List Char) : Nat :=
  cs.foldl (fun a c => a * 10 + (c.toNat - 48)) 0

/-- JavaScript parseInt on the text of a numeric input: skip leading
whitespace, read an optional sign and then the longest prefix of decimal
digits; none when no digit follows (NaN). The legacy radix-16
autodetection for a 0x prefix cannot arise here and is not modelled. -/
def jsParseInt (t : String) : Option Int :=
  let cs := t.toList.dropWhile (fun c => c = ' ' ∨ c = '\t' ∨ c = '\n' ∨ c = '\r')
  match cs with
  | '-' :: rest =>
    let ds := rest.takeWhile Char.isDigit
    if ds = [] then none else some (-(digitsToNat ds : Int))
  | '+' :: rest =>
    let ds := rest.takeWhile Char.isDigit
    if ds = [] then none else some ((digitsToNat ds : Int))
  | _ =>
    let ds := cs.takeWhile Char.isDigit
    if ds = [] then none else some ((digitsToNat ds : Int))

/-- parseInt(text) || 0 : fall back to 0 when the parse gives NaN (and 0
stays 0, which the falsy-or also maps to 0). -/
def parseIntOrZero (t : String) : Int :=
  (jsParseInt t).getD 0

/-- onChangeText of the main-minutes input: setMainTimerMinutes(parseInt(text) || 0). -/
def setMainTimerMinutesInput (t : String) (s : TimerPageState) : TimerPageState :=
  { s with mainTimerMinutes := parseIntOrZero t }

/-- onChangeText of the main-seconds input:
setMainTimerSeconds(Math.min(59, parseInt(text) || 0)). -/
def setMainTimerSecondsInput (t : String) (s : TimerPageState) : TimerPageState :=
  { s with mainTimerSeconds := min 59 (parseIntOrZero t) }

/-- onChangeText of the get-ready-minutes input: setGetReadyMinutes(parseInt(text) || 0). -/
def setGetReadyMinutesInput (t : String) (s : TimerPageState) : TimerPageState :=
  { s with getReadyMinutes := parseIntOrZero t }

/-- onChangeText of the get-ready-seconds input:
setGetReadySeconds(Math.min(59, parseInt(text) || 0)). -/
def setGetReadySecondsInput (t : String) (s : TimerPageState) : TimerPageState :=
  { s with getReadySeconds := min 59 (parseIntOrZero t) }

/-- The user-visible commands of the screen: a clock tick, the primary
action button, the Edit button, Save, Cancel and a keystroke in one of
the four numeric inputs. -/
inductive Cmd where
  | tick
  | primaryAction
  | openEdit
  | save
  | cancel
  | mainMinutesInput (t : String)
  | mainSecondsInput (t : String)
  | getReadyMinutesInput (t : String)
  | getReadySecondsInput (t : String)

/-- One step of the screen. Guards come from the source UI: the Edit
button carries disabled := isRunning && !isPaused; the RN Modal overlay
blocks the Start and Edit buttons while it is visible, and the modal
controls (inputs, Save, Cancel) exist only while it is visible; a tick
only happens while the interval is installed (handled inside tick). A
disabled or unreachable control is a no-op. -/
def step : Cmd → TimerPageState → TimerPageState × List Cue
  | Cmd.tick, s => tick s
  | Cmd.primaryAction, s =>
    if s.modalVisible = false then (handleStart s, []) else (s, [])
  | Cmd.openEdit, s =>
    if s.modalVisible = false ∧ ¬(s.isRunning = true ∧ s.isPaused = false) then
      (handleEdit s, [])
    else (s, [])
  | Cmd.save, s =>
    if s.modalVisible = true then (handleSave s, []) else (s, [])
  | Cmd.cancel, s =>
    if s.modalVisible = true then (handleCancel s, []) else (s, [])
  | Cmd.mainMinutesInput t, s =>
    if s.modalVisible = true then (setMainTimerMinutesInput t s, []) else (s, [])
  | Cmd.mainSecondsInput t, s =>
    if s.modalVisible = true then (setMainTimerSecondsInput t s, []) else (s, [])
  | Cmd.getReadyMinutesInput t, s =>
    if s.modalVisible = true then (setGetReadyMinutesInput t s, []) else (s, [])
  | Cmd.getReadySecondsInput t, s =>
    if s.modalVisible = true then (setGetReadySecondsInput t s, []) else (s, [])

/-- The state reached by a command, dropping the emitted cues. -/
def stepState (c : Cmd) (s : TimerPageState) : TimerPageState :=
  (step c s).1

/-- The initial useState values of timerPage.tsx: main 1:30, get-ready
0:05, timeLeft 90, not running, modal closed. -/
def initState : TimerPageState :=
  ⟨1, 30, 0, 5, 90, false, false, false, false⟩

/-- States reachable from the initial state through the screen commands. -/
inductive Reachable : TimerPageState → Prop where
  | init : Reachable initState
  | step (c : Cmd) {s : TimerPageState} :
      Reachable s → Reachable (stepState c s)

/-- The four persisted configuration values of a state. -/
def configTuple (s : TimerPageState) : Int × Int × Int × Int :=
  (s.mainTimerMinutes, s.mainTimerSeconds, s.getReadyMinutes, s.getReadySeconds)

/-- The save-on-change useEffect writes all four configuration values to
AsyncStorage whenever any of them changes; this predicate says whether a
command triggers such a persistence write. -/
def persistWriteTriggered (c : Cmd) (s : TimerPageState) : Bool :=
  decide (configTuple (stepState c s) ≠ configTuple s)

/-- Splitting off the last of n + 1 ticks. -/
theorem runTicks_succ_right (n : Nat) : ∀ s : TimerPageState,
    runTicks (n + 1) s =
      ((tick (runTicks n s).1).1, (runTicks n s).2 ++ (tick (runTicks n s).1).2) := by
  induction n with
  | zero => intro s; simp [runTicks]
  | succ m ih =>
    intro s
    have h1 : runTicks (m + 1 + 1) s =
        ((runTicks (m + 1) (tick s).1).1,
          (tick s).2 ++ (runTicks (m + 1) (tick s).1).2) := rfl
    have h2 : runTicks (m + 1) s =
        ((runTicks m (tick s).1).1, (tick s).2 ++ (runTicks m (tick s).1).2) := rfl
    rw [h1, ih (tick s).1, h2]
    simp [List.append_assoc]

/-- A tick delivered to an actively running state whose countdown has
reached 0 (or below) emits the complete cue and stops the run. -/
theorem tick_complete_step (s : TimerPageState) (hr : s.isRunning = true)
    (hp : s.isPaused = false) (h0 : s.timeLeft ≤ 0) :
    tick s = ({ s with timeLeft := 0, isRunning := false, isPaused := false,
                       getReadyPlayed := false }, [Cue.complete]) := by
  simp [tick, hr, hp, tickBody, h0]

/-- Closed form for j ticks delivered to an actively running state whose
countdown is at least j: the configuration, running flags and modal stay
put, the countdown drops by j, and the get-ready cue fires exactly when
the offset lies in the window of pre-decrement values visited. -/
theorem runTicks_closed_form (j : Nat) : ∀ s : TimerPageState,
    s.isRunning = true → s.isPaused = false → (j : Int) ≤ s.timeLeft →
    (runTicks j s).1.mainTimerMinutes = s.mainTimerMinutes ∧
    (runTicks j s).1.mainTimerSeconds = s.mainTimerSeconds ∧
    (runTicks j s).1.getReadyMinutes = s.getReadyMinutes ∧
    (runTicks j s).1.getReadySeconds = s.getReadySeconds ∧
    (runTicks j s).1.isRunning = true ∧
    (runTicks j s).1.isPaused = false ∧
    (runTicks j s).1.timeLeft = s.timeLeft - j ∧
    (runTicks j s).1.getReadyPlayed =
      (s.getReadyPlayed ||
        decide (s.timeLeft - j < getReadyTime s ∧ getReadyTime s ≤ s.timeLeft)) ∧
    (runTicks j s).2 =
      (if s.getReadyPlayed = false ∧ s.timeLeft - j < getReadyTime s ∧
          getReadyTime s ≤ s.timeLeft
       then [Cue.getReady] else []) := by
  induction j with
  | zero =>
    intro s hr hp hj
    have hwin : ¬(s.timeLeft - ((0 : Nat) : Int) < getReadyTime s ∧
        getReadyTime s ≤ s.timeLeft) := by
      push_cast
      omega
    simp [runTicks, hr, hp, hwin]
  | succ m ih =>
    intro s hr hp hj
    have hpos : ¬ s.timeLeft ≤ 0 := by
      push_cast at hj
      omega
    have htick : tick s = tickBody s := by simp [tick, hr, hp]
    by_cases hg : s.timeLeft = getReadyTime s ∧ s.getReadyPlayed = false
    · have hb : tickBody s =
          ({ s with timeLeft := s.timeLeft - 1, getReadyPlayed := true },
           [Cue.getReady]) := by
        unfold tickBody
        rw [if_neg hpos, if_pos hg]
      have hle : ((m : Nat) : Int) ≤ s.timeLeft - 1 := by
        push_cast at hj ⊢
        omega
      have ihm := ih { s with timeLeft := s.timeLeft - 1, getReadyPlayed := true }
        hr hp hle
      obtain ⟨i1, i2, i3, i4, i5, i6, i7, i8, i9⟩ := ihm
      have hq1 : ({ s with timeLeft := s.timeLeft - 1, getReadyPlayed := true } :
          TimerPageState).getReadyPlayed = true := rfl
      have hq2 : ({ s with timeLeft := s.timeLeft - 1, getReadyPlayed := true } :
          TimerPageState).timeLeft = s.timeLeft - 1 := rfl
      have hq3 : getReadyTime ({ s with timeLeft := s.timeLeft - 1, getReadyPlayed := true } : TimerPageState) = getReadyTime s := rfl
      refine ⟨?_, ?_, ?_, ?_, ?_, ?_, ?_, ?_, ?_⟩
      · simp only [runTicks, htick, hb]
        exact i1
      · simp only [runTicks, htick, hb]
        exact i2
      · simp only [runTicks, htick, hb]
        exact i3
      · simp only [runTicks, htick, hb]
        exact i4
      · simp only [runTicks, htick, hb]
        exact i5
      · simp only [runTicks, htick, hb]
        exact i6
      · simp only [runTicks, htick, hb]
        rw [i7]
        show s.timeLeft - 1 - (m : Int) = s.timeLeft - ((m + 1 : Nat) : Int)
        push_cast
        ring
      · simp only [runTicks, htick, hb]
        rw [i8, hq1, hq2, hq3, hg.2]
        simp only [Bool.true_or, Bool.false_or]
        symm
        rw [decide_eq_true_eq]
        have hgt := hg.1
        constructor
        · push_cast
          omega
        · omega
      · simp only [runTicks, htick, hb]
        rw [i9, hq1, hq2, hq3]
        have hne : ¬(true = false ∧ s.timeLeft - 1 - (m : Int) < getReadyTime s ∧
            getReadyTime s ≤ s.timeLeft - 1) := by simp
        rw [if_neg hne]
        have hgt := hg.1
        rw [if_pos ⟨hg.2, by push_cast; omega, by omega⟩]
        simp
    · have hb : tickBody s = ({ s with timeLeft := s.timeLeft - 1 }, []) := by
        unfold tickBody
        rw [if_neg hpos, if_neg hg]
      have hle : ((m : Nat) : Int) ≤ s.timeLeft - 1 := by
        push_cast at hj ⊢
        omega
      have ihm := ih { s with timeLeft := s.timeLeft - 1 } hr hp hle
      obtain ⟨i1, i2, i3, i4, i5, i6, i7, i8, i9⟩ := ihm
      have hq1 : ({ s with timeLeft := s.timeLeft - 1 } :
          TimerPageState).getReadyPlayed = s.getReadyPlayed := rfl
      have hq2 : ({ s with timeLeft := s.timeLeft - 1 } :
          TimerPageState).timeLeft = s.timeLeft - 1 := rfl
      have hq3 : getReadyTime ({ s with timeLeft := s.timeLeft - 1 } : TimerPageState) = getReadyTime s := rfl
      refine ⟨?_, ?_, ?_, ?_, ?_, ?_, ?_, ?_, ?_⟩
      · simp only [runTicks, htick, hb]
        exact i1
      · simp only [runTicks, htick, hb]
        exact i2
      · simp only [runTicks, htick, hb]
        exact i3
      · simp only [runTicks, htick, hb]
        exact i4
      · simp only [runTicks, htick, hb]
        exact i5
      · simp only [runTicks, htick, hb]
        exact i6
      · simp only [runTicks, htick, hb]
        rw [i7]
        show s.timeLeft - 1 - (m : Int) = s.timeLeft - ((m + 1 : Nat) : Int)
        push_cast
        ring
      · simp only [runTicks, htick, hb]
        rw [i8, hq1, hq2, hq3]
        cases hgp : s.getReadyPlayed with
        | false =>
          simp only [Bool.false_or]
          rw [decide_eq_decide]
          have hne : s.timeLeft ≠ getReadyTime s := fun h => hg ⟨h, hgp⟩
          push_cast
          omega
        | true =>
          simp only [Bool.true_or]
      · simp only [runTicks, htick, hb]
        rw [i9, hq1, hq2, hq3]
        simp only [List.nil_append]
        cases hgp : s.getReadyPlayed with
        | false =>
          have hne : s.timeLeft ≠ getReadyTime s := fun h => hg ⟨h, hgp⟩
          have hiffc : (false = false ∧ s.timeLeft - 1 - (m : Int) < getReadyTime s ∧
                getReadyTime s ≤ s.timeLeft - 1) ↔
              (false = false ∧ s.timeLeft - ((m + 1 : Nat) : Int) < getReadyTime s ∧
                getReadyTime s ≤ s.timeLeft) := by
            constructor
            · rintro ⟨h1, h2, h3⟩
              exact ⟨h1, by push_cast; omega, by omega⟩
            · rintro ⟨h1, h2, h3⟩
              exact ⟨h1, by push_cast at h2 ⊢; omega, by omega⟩
          exact if_congr hiffc rfl rfl
        | true =>
          rw [if_neg (by simp), if_neg (by simp)]

/-- handleStart from a non-running state begins a fresh run. -/
theorem handleStart_fresh (s : TimerPageState) (h : s.isRunning = false) :
    handleStart s = { s with timeLeft := totalTime s, isRunning := true,
                             isPaused := false, getReadyPlayed := false } := by
  simp [handleStart, h]

/-- A tick delivered to an actively running state whose countdown is
positive and equals the offset, with the cue not yet fired, emits the
get-ready cue and decrements. -/
theorem tick_getReady_step (s : TimerPageState) (hr : s.isRunning = true)
    (hp : s.isPaused = false) (hpos : 0 < s.timeLeft)
    (heq : s.timeLeft = getReadyTime s) (hgp : s.getReadyPlayed = false) :
    tick s = ({ s with timeLeft := s.timeLeft - 1, getReadyPlayed := true },
              [Cue.getReady]) := by
  have h1 : tick s = tickBody s := by simp [tick, hr, hp]
  rw [h1]
  unfold tickBody
  rw [if_neg (by omega), if_pos ⟨heq, hgp⟩]

/-- Running the full configured duration from a fresh start brings the
countdown to exactly 0 with the run still active, the get-ready cue
having fired exactly when the offset lies in (0, totalTime]. -/
theorem run_to_zero (s : TimerPageState) (hr : s.isRunning = false)
    (hN : 0 < totalTime s) :
    (runTicks (totalTime s).toNat (handleStart s)).1.timeLeft = 0 ∧
    (runTicks (totalTime s).toNat (handleStart s)).1.isRunning = true ∧
    (runTicks (totalTime s).toNat (handleStart s)).1.isPaused = false ∧
    (runTicks (totalTime s).toNat (handleStart s)).1.getReadyPlayed =
      decide (0 < getReadyTime s ∧ getReadyTime s ≤ totalTime s) ∧
    (runTicks (totalTime s).toNat (handleStart s)).2 =
      (if 0 < getReadyTime s ∧ getReadyTime s ≤ totalTime s
       then [Cue.getReady] else []) := by
  have hcast : (((totalTime s).toNat : Nat) : Int) = totalTime s :=
    Int.toNat_of_nonneg hN.le
  rw [handleStart_fresh s hr]
  have hfields := runTicks_closed_form (totalTime s).toNat
    { s with timeLeft := totalTime s, isRunning := true, isPaused := false,
             getReadyPlayed := false } rfl rfl (by rw [hcast])
  obtain ⟨i1, i2, i3, i4, i5, i6, i7, i8, i9⟩ := hfields
  have hq2 : ({ s with timeLeft := totalTime s, isRunning := true, isPaused := false, getReadyPlayed := false } : TimerPageState).timeLeft = totalTime s := rfl
  have hq3 : getReadyTime ({ s with timeLeft := totalTime s, isRunning := true, isPaused := false, getReadyPlayed := false } : TimerPageState) = getReadyTime s := rfl
  have hq4 : ({ s with timeLeft := totalTime s, isRunning := true, isPaused := false, getReadyPlayed := false } : TimerPageState).getReadyPlayed = false := rfl
  simp only [hq2, hq3, hq4, hcast] at i7 i8 i9
  refine ⟨by rw [i7]; ring, i5, i6, ?_, ?_⟩
  · rw [i8]
    simp only [Bool.false_or]
    rw [decide_eq_decide]
    constructor
    · rintro ⟨h1, h2⟩
      exact ⟨by omega, h2⟩
    · rintro ⟨h1, h2⟩
      exact ⟨by omega, h2⟩
  · rw [i9]
    have hiffc : (True ∧ totalTime s - totalTime s < getReadyTime s ∧
          getReadyTime s ≤ totalTime s) ↔
        (0 < getReadyTime s ∧ getReadyTime s ≤ totalTime s) := by
      constructor
      · rintro ⟨h1, h2, h3⟩
        exact ⟨by omega, h3⟩
      · rintro ⟨h1, h2⟩
        exact ⟨trivial, by omega, h2⟩
    exact if_congr hiffc rfl rfl

/-- C1 (corrected): after start() from a non-running state with positive
duration, delivering exactly totalTime ticks leaves the countdown at 0
but the run still active with no complete cue yet; one further tick
emits the complete cue exactly once and stops the run. -/
theorem c1_completion_needs_extra_tick (s : TimerPageState)
    (hr : s.isRunning = false) (hN : 0 < totalTime s) :
    (runTicks (totalTime s).toNat (handleStart s)).1.timeLeft = 0 ∧
    (runTicks (totalTime s).toNat (handleStart s)).1.isRunning = true ∧
    (runTicks (totalTime s).toNat (handleStart s)).2.count Cue.complete = 0 ∧
    (runTicks ((totalTime s).toNat + 1) (handleStart s)).1.timeLeft = 0 ∧
    (runTicks ((totalTime s).toNat + 1) (handleStart s)).1.isRunning = false ∧
    (runTicks ((totalTime s).toNat + 1) (handleStart s)).2.count Cue.complete = 1 := by
  obtain ⟨h0, h1, h2, h3, h4⟩ := run_to_zero s hr hN
  have hcnt : (runTicks (totalTime s).toNat (handleStart s)).2.count Cue.complete = 0 := by
    rw [h4]
    split <;> rfl
  have hsucc := runTicks_succ_right (totalTime s).toNat (handleStart s)
  have htc := tick_complete_step (runTicks (totalTime s).toNat (handleStart s)).1
    h1 h2 (by omega)
  refine ⟨h0, h1, hcnt, ?_, ?_, ?_⟩
  · rw [hsucc]
    simp only [htc]
  · rw [hsucc]
    simp only [htc]
  · rw [hsucc]
    simp only [htc, List.count_append]
    rw [hcnt]
    rfl

/-- C1 witness at the default configuration (main duration 90 s). -/
theorem c1_completion_needs_extra_tick_witness :
    (runTicks (totalTime initState).toNat (handleStart initState)).1.timeLeft = 0 ∧
    (runTicks (totalTime initState).toNat (handleStart initState)).1.isRunning = true ∧
    (runTicks (totalTime initState).toNat (handleStart initState)).2.count Cue.complete = 0 ∧
    (runTicks ((totalTime initState).toNat + 1) (handleStart initState)).1.timeLeft = 0 ∧
    (runTicks ((totalTime initState).toNat + 1) (handleStart initState)).1.isRunning = false ∧
    (runTicks ((totalTime initState).toNat + 1) (handleStart initState)).2.count Cue.complete = 1 :=
  c1_completion_needs_extra_tick initState (by decide) (by decide)

/-- C1 counterexample: with a 1-second main duration, after exactly
totalTime = 1 tick the status is still running and no complete cue has
been emitted, contradicting completion in exactly mainDurationSeconds
ticks. -/
theorem c1_counterexample :
    (runTicks 1 (handleStart ⟨0, 1, 0, 5, 1, false, false, false, false⟩)).1.isRunning = true ∧
    (runTicks 1 (handleStart ⟨0, 1, 0, 5, 1, false, false, false, false⟩)).2.count Cue.complete = 0 ∧
    (runTicks 1 (handleStart ⟨0, 1, 0, 5, 1, false, false, false, false⟩)).1.timeLeft = 0 := by
  decide

/-- C3 (corrected): with mainDurationSeconds = 0, start() alone leaves
the engine running with countdown 0 and emits nothing; the first clock
tick then emits the complete cue and stops the run, with no get-ready
cue. -/
theorem c3_zero_duration_completes_on_first_tick (s : TimerPageState)
    (hr : s.isRunning = false) (h0 : totalTime s = 0) :
    (handleStart s).isRunning = true ∧
    (handleStart s).timeLeft = 0 ∧
    (tick (handleStart s)).1.isRunning = false ∧
    (tick (handleStart s)).1.timeLeft = 0 ∧
    (tick (handleStart s)).2 = [Cue.complete] ∧
    (tick (handleStart s)).2.count Cue.getReady = 0 := by
  rw [handleStart_fresh s hr]
  have htc := tick_complete_step
    { s with timeLeft := totalTime s, isRunning := true, isPaused := false,
             getReadyPlayed := false } rfl rfl (by rw [show ({ s with timeLeft := totalTime s, isRunning := true, isPaused := false, getReadyPlayed := false } : TimerPageState).timeLeft = totalTime s from rfl, h0])
  refine ⟨rfl, by rw [show ({ s with timeLeft := totalTime s, isRunning := true, isPaused := false, getReadyPlayed := false } : TimerPageState).timeLeft = totalTime s from rfl, h0], ?_, ?_, ?_, ?_⟩
  · rw [htc]
  · rw [htc]
  · rw [htc]
  · rw [htc]
    rfl

/-- C3 witness: zero-duration configuration with the default get-ready
offset. -/
theorem c3_zero_duration_completes_on_first_tick_witness :
    (handleStart ⟨0, 0, 0, 5, 0, false, false, false, false⟩).isRunning = true ∧
    (handleStart ⟨0, 0, 0, 5, 0, false, false, false, false⟩).timeLeft = 0 ∧
    (tick (handleStart ⟨0, 0, 0, 5, 0, false, false, false, false⟩)).1.isRunning = false ∧
    (tick (handleStart ⟨0, 0, 0, 5, 0, false, false, false, false⟩)).1.timeLeft = 0 ∧
    (tick (handleStart ⟨0, 0, 0, 5, 0, false, false, false, false⟩)).2 = [Cue.complete] ∧
    (tick (handleStart ⟨0, 0, 0, 5, 0, false, false, false, false⟩)).2.count Cue.getReady = 0 :=
  c3_zero_duration_completes_on_first_tick ⟨0, 0, 0, 5, 0, false, false, false, false⟩
    (by decide) (by decide)

/-- C3 counterexample: with mainDurationSeconds = 0, start() alone does
not complete: the status is Running (not Completed) and no cue at all
has been emitted before the first clock tick. -/
theorem c3_counterexample :
    (handleStart ⟨0, 0, 0, 5, 0, false, false, false, false⟩).isRunning = true := by
  decide

/-- Closed form for a prefix of a fresh run: j ticks after start() leave
the countdown at totalTime - j, still actively running, the get-ready
flag and cue output determined by whether the offset was visited. -/
theorem run_partial (s : TimerPageState) (hr : s.isRunning = false) (j : Nat)
    (hj : (j : Int) ≤ totalTime s) :
    (runTicks j (handleStart s)).1.timeLeft = totalTime s - j ∧
    (runTicks j (handleStart s)).1.isRunning = true ∧
    (runTicks j (handleStart s)).1.isPaused = false ∧
    getReadyTime (runTicks j (handleStart s)).1 = getReadyTime s ∧
    (runTicks j (handleStart s)).1.getReadyPlayed =
      decide (totalTime s - (j : Int) < getReadyTime s ∧
        getReadyTime s ≤ totalTime s) := by
  rw [handleStart_fresh s hr]
  have hfields := runTicks_closed_form j
    { s with timeLeft := totalTime s, isRunning := true, isPaused := false,
             getReadyPlayed := false } rfl rfl hj
  obtain ⟨i1, i2, i3, i4, i5, i6, i7, i8, i9⟩ := hfields
  have hq2 : ({ s with timeLeft := totalTime s, isRunning := true, isPaused := false, getReadyPlayed := false } : TimerPageState).timeLeft = totalTime s := rfl
  have hq3 : getReadyTime ({ s with timeLeft := totalTime s, isRunning := true, isPaused := false, getReadyPlayed := false } : TimerPageState) = getReadyTime s := rfl
  have hq4 : ({ s with timeLeft := totalTime s, isRunning := true, isPaused := false, getReadyPlayed := false } : TimerPageState).getReadyPlayed = false := rfl
  simp only [hq2, hq3, hq4, Bool.false_or] at i7 i8
  refine ⟨i7, i5, i6, ?_, i8⟩
  unfold getReadyTime
  rw [i3, i4]

/-- C2 (corrected): in a fresh full run, when 0 < offset < duration the
get-ready cue is emitted exactly once, namely by the tick whose
pre-decrement countdown equals the offset; when the offset is 0 the
completion branch returns before the equality check, so no get-ready cue
is ever emitted. -/
theorem c2_get_ready_cue_timing (s : TimerPageState) (hr : s.isRunning = false) :
    (0 < getReadyTime s → getReadyTime s < totalTime s →
      (runTicks ((totalTime s).toNat + 1) (handleStart s)).2.count Cue.getReady = 1 ∧
      (runTicks ((totalTime s).toNat - (getReadyTime s).toNat) (handleStart s)).1.timeLeft = getReadyTime s ∧
      (runTicks ((totalTime s).toNat - (getReadyTime s).toNat) (handleStart s)).1.getReadyPlayed = false ∧
      (tick (runTicks ((totalTime s).toNat - (getReadyTime s).toNat) (handleStart s)).1).2 = [Cue.getReady]) ∧
    (getReadyTime s = 0 → 0 < totalTime s →
      (runTicks ((totalTime s).toNat + 1) (handleStart s)).2.count Cue.getReady = 0) := by
  constructor
  · intro hg hlt
    have hN : 0 < totalTime s := lt_trans hg hlt
    have hn : (((totalTime s).toNat : Nat) : Int) = totalTime s :=
      Int.toNat_of_nonneg hN.le
    have hk : (((getReadyTime s).toNat : Nat) : Int) = getReadyTime s :=
      Int.toNat_of_nonneg hg.le
    have hkn : (getReadyTime s).toNat ≤ (totalTime s).toNat := by omega
    have hcast : (((totalTime s).toNat - (getReadyTime s).toNat : Nat) : Int) =
        totalTime s - getReadyTime s := by
      rw [Nat.cast_sub hkn, hn, hk]
    obtain ⟨h0, h1, h2, h3, h4⟩ := run_to_zero s hr hN
    have hcnt1 : (runTicks (totalTime s).toNat (handleStart s)).2.count
        Cue.getReady = 1 := by
      rw [h4, if_pos ⟨hg, le_of_lt hlt⟩]
      rfl
    obtain ⟨p1, p2, p3, p4, p5⟩ := run_partial s hr
      ((totalTime s).toNat - (getReadyTime s).toNat) (by rw [hcast]; omega)
    rw [hcast] at p1 p5
    have ht1 : (runTicks ((totalTime s).toNat - (getReadyTime s).toNat)
        (handleStart s)).1.timeLeft = getReadyTime s := by
      rw [p1]
      ring
    have hgp : (runTicks ((totalTime s).toNat - (getReadyTime s).toNat)
        (handleStart s)).1.getReadyPlayed = false := by
      rw [p5]
      simp only [decide_eq_false_iff_not]
      intro hcontra
      omega
    refine ⟨?_, ht1, hgp, ?_⟩
    · rw [runTicks_succ_right]
      simp only [tick_complete_step _ h1 h2 (by omega), List.count_append]
      rw [hcnt1]
      rfl
    · have hstep := tick_getReady_step
        (runTicks ((totalTime s).toNat - (getReadyTime s).toNat) (handleStart s)).1
        p2 p3 (by rw [ht1]; omega) (by rw [ht1, p4]) hgp
      rw [hstep]
  · intro hg0 hN
    obtain ⟨h0, h1, h2, h3, h4⟩ := run_to_zero s hr hN
    have hcnt0 : (runTicks (totalTime s).toNat (handleStart s)).2.count
        Cue.getReady = 0 := by
      rw [h4, if_neg (by omega)]
      rfl
    rw [runTicks_succ_right]
    simp only [tick_complete_step _ h1 h2 (by omega), List.count_append]
    rw [hcnt0]
    rfl

/-- C2 witness: default configuration (duration 90 s, offset 5 s). -/
theorem c2_get_ready_cue_timing_witness :
    (runTicks ((totalTime initState).toNat + 1) (handleStart initState)).2.count Cue.getReady = 1 ∧
    (runTicks ((totalTime initState).toNat - (getReadyTime initState).toNat) (handleStart initState)).1.timeLeft = getReadyTime initState ∧
    (runTicks ((totalTime initState).toNat - (getReadyTime initState).toNat) (handleStart initState)).1.getReadyPlayed = false ∧
    (tick (runTicks ((totalTime initState).toNat - (getReadyTime initState).toNat) (handleStart initState)).1).2 = [Cue.getReady] :=
  (c2_get_ready_cue_timing initState (by decide)).1 (by decide) (by decide)

/-- C2 counterexample: with duration 1 s and offset 0 s (an instance of
0 ≤ offset < duration), the full run finishes with zero get-ready cues
emitted, and delivering more ticks emits nothing further: the claimed
degenerate-case get-ready emission never happens. -/
theorem c2_counterexample :
    (runTicks 2 (handleStart ⟨0, 1, 0, 0, 1, false, false, false, false⟩)).1.isRunning = false ∧
    (runTicks 2 (handleStart ⟨0, 1, 0, 0, 1, false, false, false, false⟩)).2.count Cue.getReady = 0 ∧
    runTicks 9 (handleStart ⟨0, 1, 0, 0, 1, false, false, false, false⟩) =
      runTicks 2 (handleStart ⟨0, 1, 0, 0, 1, false, false, false, false⟩) := by
  decide

/-- C4 (corrected): with offset strictly greater than the duration, a
full run emits no get-ready cue; but with offset exactly equal to a
positive duration, the very first tick after start() emits the get-ready
cue (its pre-decrement countdown equals the offset). -/
theorem c4_offset_at_least_duration (s : TimerPageState)
    (hr : s.isRunning = false) (hN : 0 ≤ totalTime s) :
    (totalTime s < getReadyTime s →
      (runTicks ((totalTime s).toNat + 1) (handleStart s)).2.count Cue.getReady = 0) ∧
    (getReadyTime s = totalTime s → 0 < totalTime s →
      (tick (handleStart s)).2 = [Cue.getReady]) := by
  have hs1r : (handleStart s).isRunning = true := by rw [handleStart_fresh s hr]
  have hs1p : (handleStart s).isPaused = false := by rw [handleStart_fresh s hr]
  have hs1t : (handleStart s).timeLeft = totalTime s := by rw [handleStart_fresh s hr]
  have hs1g : getReadyTime (handleStart s) = getReadyTime s := by
    rw [handleStart_fresh s hr]
    rfl
  have hs1f : (handleStart s).getReadyPlayed = false := by rw [handleStart_fresh s hr]
  constructor
  · intro hgt
    rcases eq_or_lt_of_le hN with heq | hpos
    · have hn0 : (totalTime s).toNat = 0 := by omega
      rw [hn0]
      have hrepr : runTicks (0 + 1) (handleStart s) =
          ((tick (handleStart s)).1, (tick (handleStart s)).2 ++ []) := rfl
      rw [hrepr, tick_complete_step (handleStart s) hs1r hs1p (by omega)]
      rfl
    · obtain ⟨h0, h1, h2, h3, h4⟩ := run_to_zero s hr hpos
      have hcnt : (runTicks (totalTime s).toNat (handleStart s)).2.count
          Cue.getReady = 0 := by
        rw [h4, if_neg (by omega)]
        rfl
      rw [runTicks_succ_right]
      simp only [tick_complete_step _ h1 h2 (by omega), List.count_append]
      rw [hcnt]
      rfl
  · intro hge hpos
    have hstep := tick_getReady_step (handleStart s) hs1r hs1p
      (by omega) (by rw [hs1t, hs1g, hge]) hs1f
    rw [hstep]

/-- C4 witness: offset 70 s above duration 62 s emits nothing; offset 62 s
equal to duration 62 s emits the get-ready cue on the first tick. -/
theorem c4_offset_at_least_duration_witness :
    (runTicks ((totalTime ⟨1, 2, 1, 10, 62, false, false, false, false⟩).toNat + 1)
      (handleStart ⟨1, 2, 1, 10, 62, false, false, false, false⟩)).2.count Cue.getReady = 0 ∧
    (tick (handleStart ⟨1, 2, 1, 2, 62, false, false, false, false⟩)).2 = [Cue.getReady] :=
  ⟨(c4_offset_at_least_duration ⟨1, 2, 1, 10, 62, false, false, false, false⟩
      (by decide) (by decide)).1 (by decide),
   (c4_offset_at_least_duration ⟨1, 2, 1, 2, 62, false, false, false, false⟩
      (by decide) (by decide)).2 (by decide) (by decide)⟩

/-- C4 counterexample: offset 1 s with duration 1 s satisfies
offset ≥ duration, yet the full run emits one get-ready cue (on the
first tick, whose pre-decrement countdown is 1 = offset). -/
theorem c4_counterexample :
    (runTicks 2 (handleStart ⟨0, 1, 0, 1, 1, false, false, false, false⟩)).2.count Cue.getReady = 1 := by
  decide

/-- C5 (confirmed): the primary action dispatches three ways on the
current status: not running starts a fresh run, paused resumes, actively
running pauses; pause followed by resume restores the state exactly
(preserving the countdown), pausing changes nothing but the paused flag,
and once the get-ready cue has fired no tick re-emits it. -/
theorem c5_primary_action_dispatch (s : TimerPageState) :
    (s.isRunning = false →
      handleStart s = { s with timeLeft := totalTime s, isRunning := true,
                               isPaused := false, getReadyPlayed := false }) ∧
    (s.isRunning = true → s.isPaused = true →
      handleStart s = { s with isPaused := false }) ∧
    (s.isRunning = true → s.isPaused = false →
      handleStart s = { s with isPaused := true }) ∧
    (s.isRunning = true → s.isPaused = false →
      handleStart (handleStart s) = s) ∧
    (s.isRunning = true →
      (handleStart s).timeLeft = s.timeLeft ∧
      (handleStart s).getReadyPlayed = s.getReadyPlayed) ∧
    (s.getReadyPlayed = true → (tick s).2.count Cue.getReady = 0) := by
  obtain ⟨m1, m2, g1, g2, tl, ir, ip, gp, mv⟩ := s
  refine ⟨?_, ?_, ?_, ?_, ?_, ?_⟩
  · intro h1
    replace h1 : ir = false := h1
    subst h1
    simp [handleStart]
  · intro h1 h2
    replace h1 : ir = true := h1
    replace h2 : ip = true := h2
    subst h1
    subst h2
    simp [handleStart]
  · intro h1 h2
    replace h1 : ir = true := h1
    replace h2 : ip = false := h2
    subst h1
    subst h2
    simp [handleStart]
  · intro h1 h2
    replace h1 : ir = true := h1
    replace h2 : ip = false := h2
    subst h1
    subst h2
    simp [handleStart]
  · intro h1
    replace h1 : ir = true := h1
    subst h1
    cases ip <;> simp [handleStart]
  · intro h1
    unfold tick
    by_cases hact : (ir && !ip) = true
    · rw [if_pos hact]
      unfold tickBody
      by_cases h0 : (⟨m1, m2, g1, g2, tl, ir, ip, gp, mv⟩ : TimerPageState).timeLeft ≤ 0
      · rw [if_pos h0]
        rfl
      · rw [if_neg h0, if_neg ?_]
        · rfl
        · rintro ⟨-, h2⟩
          replace h1 : gp = true := h1
          replace h2 : gp = false := h2
          rw [h1] at h2
          exact Bool.noConfusion h2
    · rw [if_neg hact]
      rfl

/-- C5 witness: from a paused mid-run state the primary action resumes,
and pausing then resuming an active run restores it exactly. -/
theorem c5_primary_action_dispatch_witness :
    handleStart ⟨1, 30, 0, 5, 42, true, true, true, false⟩ =
      { (⟨1, 30, 0, 5, 42, true, true, true, false⟩ : TimerPageState) with isPaused := false } ∧
    handleStart (handleStart ⟨1, 30, 0, 5, 42, true, false, true, false⟩) =
      ⟨1, 30, 0, 5, 42, true, false, true, false⟩ ∧
    (tick ⟨1, 30, 0, 5, 5, true, false, true, false⟩).2.count Cue.getReady = 0 :=
  ⟨(c5_primary_action_dispatch ⟨1, 30, 0, 5, 42, true, true, true, false⟩).2.1
      (by decide) (by decide),
   (c5_primary_action_dispatch ⟨1, 30, 0, 5, 42, true, false, true, false⟩).2.2.2.1
      (by decide) (by decide),
   (c5_primary_action_dispatch ⟨1, 30, 0, 5, 5, true, false, true, false⟩).2.2.2.2.2
      (by decide)⟩

/-- C7 (confirmed): handleSave (commitEdit) always applies the currently
edited configuration, resets the countdown to its totalTime, clears the
run flags and the get-ready flag, and closes the modal, for every prior
state including mid-run. -/
theorem c7_commit_edit_always_resets (s : TimerPageState) :
    (handleSave s).timeLeft = totalTime s ∧
    (handleSave s).isRunning = false ∧
    (handleSave s).isPaused = false ∧
    (handleSave s).getReadyPlayed = false ∧
    (handleSave s).modalVisible = false ∧
    (handleSave s).mainTimerMinutes = s.mainTimerMinutes ∧
    (handleSave s).mainTimerSeconds = s.mainTimerSeconds ∧
    (handleSave s).getReadyMinutes = s.getReadyMinutes ∧
    (handleSave s).getReadySeconds = s.getReadySeconds :=
  ⟨rfl, rfl, rfl, rfl, rfl, rfl, rfl, rfl, rfl⟩

/-- In every reachable state the edit modal is closed whenever the
countdown is actively running: the Edit button is disabled while
isRunning and not isPaused, the modal overlay blocks the primary action
while it is open, and completion or save always clears the running
flags. -/
theorem modal_closed_while_active (s : TimerPageState) (h : Reachable s) :
    s.modalVisible = true → ¬(s.isRunning = true ∧ s.isPaused = false) := by
  induction h with
  | init =>
    intro hm
    exact absurd hm (by decide)
  | step c h ih =>
    rename_i s
    cases c with
    | tick =>
      by_cases hact : (s.isRunning && !s.isPaused) = true
      · have hstep : stepState Cmd.tick s = (tickBody s).1 := by
          simp [stepState, step, tick, hact]
        rw [hstep]
        unfold tickBody
        by_cases h0 : s.timeLeft ≤ 0
        · rw [if_pos h0]
          intro hm hc
          exact Bool.noConfusion hc.1
        · rw [if_neg h0]
          by_cases hg : s.timeLeft = getReadyTime s ∧ s.getReadyPlayed = false
          · rw [if_pos hg]
            intro hm hc
            exact ih hm hc
          · rw [if_neg hg]
            intro hm hc
            exact ih hm hc
      · have hstep : stepState Cmd.tick s = s := by
          simp [stepState, step, tick, hact]
        rw [hstep]
        exact ih
    | primaryAction =>
      by_cases hm : s.modalVisible = false
      · have hstep : stepState Cmd.primaryAction s = handleStart s := by
          simp [stepState, step, hm]
        rw [hstep]
        intro hm2
        have hmod : (handleStart s).modalVisible = s.modalVisible := by
          unfold handleStart
          split
          · rfl
          · split <;> rfl
        rw [hmod, hm] at hm2
        exact absurd hm2 (fun hx => Bool.noConfusion hx)
      · have hstep : stepState Cmd.primaryAction s = s := by
          simp [stepState, step, hm]
        rw [hstep]
        exact ih
    | openEdit =>
      by_cases hguard : s.modalVisible = false ∧
          ¬(s.isRunning = true ∧ s.isPaused = false)
      · have hstep : stepState Cmd.openEdit s = handleEdit s := by
          simp only [stepState, step, if_pos hguard]
        rw [hstep]
        intro hm2
        exact hguard.2
      · have hstep : stepState Cmd.openEdit s = s := by
          simp only [stepState, step, if_neg hguard]
        rw [hstep]
        exact ih
    | save =>
      by_cases hm : s.modalVisible = true
      · have hstep : stepState Cmd.save s = handleSave s := by
          simp [stepState, step, hm]
        rw [hstep]
        intro hm2 hc
        exact Bool.noConfusion hc.1
      · have hstep : stepState Cmd.save s = s := by
          simp [stepState, step, hm]
        rw [hstep]
        exact ih
    | cancel =>
      by_cases hm : s.modalVisible = true
      · have hstep : stepState Cmd.cancel s = handleCancel s := by
          simp [stepState, step, hm]
        rw [hstep]
        intro hm2
        exact absurd hm2 (fun hx => Bool.noConfusion hx)
      · have hstep : stepState Cmd.cancel s = s := by
          simp [stepState, step, hm]
        rw [hstep]
        exact ih
    | mainMinutesInput t =>
      by_cases hm : s.modalVisible = true
      · have hstep : stepState (Cmd.mainMinutesInput t) s =
            setMainTimerMinutesInput t s := by
          simp [stepState, step, hm]
        rw [hstep]
        intro hm2 hc
        exact ih hm2 hc
      · have hstep : stepState (Cmd.mainMinutesInput t) s = s := by
          simp [stepState, step, hm]
        rw [hstep]
        exact ih
    | mainSecondsInput t =>
      by_cases hm : s.modalVisible = true
      · have hstep : stepState (Cmd.mainSecondsInput t) s =
            setMainTimerSecondsInput t s := by
          simp [stepState, step, hm]
        rw [hstep]
        intro hm2 hc
        exact ih hm2 hc
      · have hstep : stepState (Cmd.mainSecondsInput t) s = s := by
          simp [stepState, step, hm]
        rw [hstep]
        exact ih
    | getReadyMinutesInput t =>
      by_cases hm : s.modalVisible = true
      · have hstep : stepState (Cmd.getReadyMinutesInput t) s =
            setGetReadyMinutesInput t s := by
          simp [stepState, step, hm]
        rw [hstep]
        intro hm2 hc
        exact ih hm2 hc
      · have hstep : stepState (Cmd.getReadyMinutesInput t) s = s := by
          simp [stepState, step, hm]
        rw [hstep]
        exact ih
    | getReadySecondsInput t =>
      by_cases hm : s.modalVisible = true
      · have hstep : stepState (Cmd.getReadySecondsInput t) s =
            setGetReadySecondsInput t s := by
          simp [stepState, step, hm]
        rw [hstep]
        intro hm2 hc
        exact ih hm2 hc
      · have hstep : stepState (Cmd.getReadySecondsInput t) s = s := by
          simp [stepState, step, hm]
        rw [hstep]
        exact ih

/-- C10 (confirmed): in every reachable state, opening the edit dialog
while actively running is a no-op (the button is disabled), the dialog
is never open while the countdown is actively ticking, and Save and
Cancel are no-ops whenever the dialog is closed, so commitEdit and
cancelEdit are never issued mid-active-run. -/
theorem c10_edit_guard (s : TimerPageState) (h : Reachable s) :
    (s.modalVisible = true → ¬(s.isRunning = true ∧ s.isPaused = false)) ∧
    (s.isRunning = true → s.isPaused = false → stepState Cmd.openEdit s = s) ∧
    (s.modalVisible = false →
      stepState Cmd.save s = s ∧ stepState Cmd.cancel s = s) := by
  refine ⟨modal_closed_while_active s h, ?_, ?_⟩
  · intro h1 h2
    have hng : ¬(s.modalVisible = false ∧
        ¬(s.isRunning = true ∧ s.isPaused = false)) := by
      rintro ⟨-, hgg⟩
      exact hgg ⟨h1, h2⟩
    simp only [stepState, step, if_neg hng]
  · intro h1
    have hm : ¬ s.modalVisible = true := by
      rw [h1]
      exact fun hx => Bool.noConfusion hx
    constructor <;> simp only [stepState, step, if_neg hm]

/-- C10 witness: after opening the edit dialog from the initial state
(a reachable state with the dialog open), the countdown is not actively
running. -/
theorem c10_edit_guard_witness :
    ¬((stepState Cmd.openEdit initState).isRunning = true ∧
      (stepState Cmd.openEdit initState).isPaused = false) :=
  (c10_edit_guard (stepState Cmd.openEdit initState)
    (Reachable.step Cmd.openEdit Reachable.init)).1 (by decide)

/-- C6 (corrected): a tick processed while actively running decrements
the countdown by exactly 1 when it is positive; at 0 or below the tick
completes the run and clamps the countdown to 0 (no decrement); ticking
never turns a non-negative countdown negative; and start() from a
non-running state resets the countdown to the configured total. -/
theorem c6_tick_decrement_facts (s : TimerPageState) :
    (s.isRunning = true → s.isPaused = false → 0 < s.timeLeft →
      (tick s).1.timeLeft = s.timeLeft - 1) ∧
    (s.isRunning = true → s.isPaused = false → s.timeLeft ≤ 0 →
      (tick s).1.timeLeft = 0 ∧ (tick s).1.isRunning = false) ∧
    (0 ≤ s.timeLeft → 0 ≤ (tick s).1.timeLeft) ∧
    (s.isRunning = false → (handleStart s).timeLeft = totalTime s) := by
  refine ⟨?_, ?_, ?_, ?_⟩
  · intro h1 h2 h3
    have ht : tick s = tickBody s := by simp [tick, h1, h2]
    rw [ht]
    unfold tickBody
    rw [if_neg (by omega)]
    by_cases hg : s.timeLeft = getReadyTime s ∧ s.getReadyPlayed = false
    · rw [if_pos hg]
    · rw [if_neg hg]
  · intro h1 h2 h3
    have ht : tick s = tickBody s := by simp [tick, h1, h2]
    rw [ht]
    unfold tickBody
    rw [if_pos h3]
    exact ⟨rfl, rfl⟩
  · intro h0
    unfold tick
    by_cases hact : (s.isRunning && !s.isPaused) = true
    · rw [if_pos hact]
      unfold tickBody
      by_cases h1 : s.timeLeft ≤ 0
      · rw [if_pos h1]
      · rw [if_neg h1]
        by_cases hg : s.timeLeft = getReadyTime s ∧ s.getReadyPlayed = false
        · rw [if_pos hg]
          show (0 : Int) ≤ s.timeLeft - 1
          omega
        · rw [if_neg hg]
          show (0 : Int) ≤ s.timeLeft - 1
          omega
    · rw [if_neg hact]
      exact h0
  · intro h1
    rw [handleStart_fresh s h1]

/-- C6 witness: a running state at 10 s decrements to 9 s on a tick, and
start() from idle resets the countdown to the configured 90 s. -/
theorem c6_tick_decrement_facts_witness :
    (tick ⟨1, 30, 0, 5, 10, true, false, false, false⟩).1.timeLeft = 9 ∧
    (handleStart initState).timeLeft = totalTime initState :=
  ⟨(c6_tick_decrement_facts ⟨1, 30, 0, 5, 10, true, false, false, false⟩).1
      (by decide) (by decide) (by decide),
   (c6_tick_decrement_facts initState).2.2.2 (by decide)⟩

/-- C6 counterexample: reachable states violate both bounds of the
claimed invariant, and a tick processed while Running need not decrement.
Typing 0 into the main-minutes field leaves the countdown at 90 above
the new total of 30; typing -5 and saving yields a negative countdown of
-270, and starting then delivers a tick processed while actively Running
that sets the countdown to 0 instead of decrementing it by 1. -/
theorem c6_counterexample :
    Reachable (stepState (Cmd.mainMinutesInput "0") (stepState Cmd.openEdit initState)) ∧
    totalTime (stepState (Cmd.mainMinutesInput "0") (stepState Cmd.openEdit initState)) <
      (stepState (Cmd.mainMinutesInput "0") (stepState Cmd.openEdit initState)).timeLeft ∧
    Reachable (stepState Cmd.primaryAction (stepState Cmd.save (stepState
      (Cmd.mainMinutesInput "-5") (stepState Cmd.openEdit initState)))) ∧
    (stepState Cmd.primaryAction (stepState Cmd.save (stepState
      (Cmd.mainMinutesInput "-5") (stepState Cmd.openEdit initState)))).timeLeft < 0 ∧
    (stepState Cmd.primaryAction (stepState Cmd.save (stepState
      (Cmd.mainMinutesInput "-5") (stepState Cmd.openEdit initState)))).isRunning = true ∧
    (stepState Cmd.primaryAction (stepState Cmd.save (stepState
      (Cmd.mainMinutesInput "-5") (stepState Cmd.openEdit initState)))).isPaused = false ∧
    (stepState Cmd.tick (stepState Cmd.primaryAction (stepState Cmd.save (stepState
      (Cmd.mainMinutesInput "-5") (stepState Cmd.openEdit initState))))).timeLeft ≠
      (stepState Cmd.primaryAction (stepState Cmd.save (stepState
        (Cmd.mainMinutesInput "-5") (stepState Cmd.openEdit initState)))).timeLeft - 1 :=
  ⟨Reachable.step _ (Reachable.step _ Reachable.init), by decide,
   Reachable.step _ (Reachable.step _ (Reachable.step _ (Reachable.step _
     Reachable.init))), by decide, by decide, by decide, by decide⟩

/-- C8 (corrected): handleCancel itself only closes the dialog, but a
keystroke in an input mutates the committed configuration immediately,
and the save-on-change effect triggers a persistence write exactly when
the configuration values change, before and independently of any commit. -/
theorem c8_cancel_does_not_restore (s : TimerPageState) (t : String)
    (hm : s.modalVisible = true) :
    handleCancel s = { s with modalVisible := false } ∧
    (stepState (Cmd.mainMinutesInput t) s).mainTimerMinutes = parseIntOrZero t ∧
    (persistWriteTriggered (Cmd.mainMinutesInput t) s = true ↔
      parseIntOrZero t ≠ s.mainTimerMinutes) := by
  refine ⟨rfl, ?_, ?_⟩
  · simp [stepState, step, hm, setMainTimerMinutesInput]
  · simp [persistWriteTriggered, stepState, step, hm, setMainTimerMinutesInput,
      configTuple]

/-- C8 witness: from the opened dialog in the initial state, a keystroke
of 5 sets main minutes to 5 and triggers a persistence write. -/
theorem c8_cancel_does_not_restore_witness :
    (stepState (Cmd.mainMinutesInput "5") (stepState Cmd.openEdit initState)).mainTimerMinutes = parseIntOrZero "5" ∧
    (persistWriteTriggered (Cmd.mainMinutesInput "5") (stepState Cmd.openEdit initState) = true ↔
      parseIntOrZero "5" ≠ (stepState Cmd.openEdit initState).mainTimerMinutes) :=
  ⟨(c8_cancel_does_not_restore (stepState Cmd.openEdit initState) "5" (by decide)).2.1,
   (c8_cancel_does_not_restore (stepState Cmd.openEdit initState) "5" (by decide)).2.2⟩

/-- C8 counterexample: an edit session that opens the dialog, types 5
into main minutes and cancels leaves the committed configuration changed
(5 instead of the prior 1), and the keystroke itself already triggered a
persistence write; so cancelEdit does not leave the configuration and
its persisted copy unchanged. -/
theorem c8_counterexample :
    (stepState Cmd.cancel (stepState (Cmd.mainMinutesInput "5")
      (stepState Cmd.openEdit initState))).mainTimerMinutes = 5 ∧
    initState.mainTimerMinutes = 1 ∧
    (stepState Cmd.cancel (stepState (Cmd.mainMinutesInput "5")
      (stepState Cmd.openEdit initState))).modalVisible = false ∧
    persistWriteTriggered (Cmd.mainMinutesInput "5")
      (stepState Cmd.openEdit initState) = true := by
  decide

/-- C9 (corrected): the seconds inputs are clamped above at 59 and
non-numeric text falls back to 0, and a non-negative parse stays within
[0, 59]; but there is no lower clamp, so negative numeric input passes
through to the state unchanged (see the counterexample). -/
theorem c9_seconds_clamped_only_above (t : String) (s : TimerPageState) :
    (setMainTimerSecondsInput t s).mainTimerSeconds ≤ 59 ∧
    (setGetReadySecondsInput t s).getReadySeconds ≤ 59 ∧
    (jsParseInt t = none →
      (setMainTimerSecondsInput t s).mainTimerSeconds = 0 ∧
      (setMainTimerMinutesInput t s).mainTimerMinutes = 0) ∧
    (0 ≤ parseIntOrZero t →
      0 ≤ (setMainTimerSecondsInput t s).mainTimerSeconds) := by
  refine ⟨?_, ?_, ?_, ?_⟩
  · show min 59 (parseIntOrZero t) ≤ 59
    exact min_le_left _ _
  · show min 59 (parseIntOrZero t) ≤ 59
    exact min_le_left _ _
  · intro h
    have hz : parseIntOrZero t = 0 := by simp [parseIntOrZero, h]
    constructor
    · show min 59 (parseIntOrZero t) = 0
      rw [hz]
      decide
    · exact hz
  · intro h
    show 0 ≤ min 59 (parseIntOrZero t)
    exact le_min (by norm_num) h

/-- C9 witness: the text 99 is clamped to 59 in the seconds field, the
text abc falls back to 0, and the text 7 stays within range. -/
theorem c9_seconds_clamped_only_above_witness :
    (setMainTimerSecondsInput "99" initState).mainTimerSeconds ≤ 59 ∧
    (setMainTimerSecondsInput "abc" initState).mainTimerSeconds = 0 ∧
    0 ≤ (setMainTimerSecondsInput "7" initState).mainTimerSeconds :=
  ⟨(c9_seconds_clamped_only_above "99" initState).1,
   ((c9_seconds_clamped_only_above "abc" initState).2.2.1 (by decide)).1,
   (c9_seconds_clamped_only_above "7" initState).2.2.2 (by decide)⟩

/-- C9 counterexample: the text -9 in a seconds field yields -9 in the
state (outside [0, 59]), and the text -5 in a minutes field yields -5:
neither field is clamped below, so negative values do reach commitEdit. -/
theorem c9_counterexample :
    (setMainTimerSecondsInput "-9" initState).mainTimerSeconds = -9 ∧
    (setMainTimerSecondsInput "-9" initState).mainTimerSeconds < 0 ∧
    (setMainTimerMinutesInput "-5" initState).mainTimerMinutes = -5 := by
  decide

end FitnessTimer
